import Mathlib

/-!
Verification development for the travel-helper pipeline.

The Python sources are shallowly embedded:
* `src/travel_helper.py` — trip search (`collect_outbound_flights`), admission
  rule (`_outbound_departure_allowed`), price parser (`_parse_price_night`),
  the lodging-enrichment loop (`fetch_hotels_for_cheapest_flights`,
  `_top_hotels_for_destination`) and the weather/attraction dedup loop
  (`_fetch_geotemp_for_trips`).
* `src/geotemp_fetch_mcp.py` — response normalizer (`_parse_tool_result`,
  `_get_block_text`) and the weather query construction (`get_weather`).
* `src/trivago/fetch_hotels_mcp.py` — the bracket-balancing array fallback
  (`extract_array_from_text`).

Python strings are modeled as `String`, with all operations implemented on
`String.data` (`List Char`) so that concrete runs reduce in the kernel.
Python floats (prices) are modeled as `ℚ`; `float("inf")` sentinel values
are modeled with `WithTop ℚ` (`⊤` is the infinity that sorts last).
Calendar dates are modeled by their proleptic-Gregorian ordinal (as in
Python `date.toordinal()`; ordinal 1 is a Monday), so `weekday()` is
`(ordinal + 6) % 7` with Monday = 0, matching Python.
-/

/-! ### Python string primitives, modeled on `List Char` -/

/-- Leading/trailing-whitespace strip, Python `str.strip()`. -/
def pyStrip (cs : List Char) : List Char :=
  ((cs.dropWhile Char.isWhitespace).reverse.dropWhile Char.isWhitespace).reverse

/-- Whether `pat` is a prefix of `cs` (by code points). -/
def listIsPre (pat cs : List Char) : Bool :=
  match pat, cs with
  | [], _ => true
  | _ :: _, [] => false
  | a :: as, b :: bs => a = b && listIsPre as bs

/-- Index of the first occurrence of `pat` in `cs`, Python `str.find` / `in`. -/
def findSub (pat : List Char) : List Char → Option ℕ
  | [] => if listIsPre pat [] then some 0 else none
  | c :: cs =>
    if listIsPre pat (c :: cs) then some 0
    else (findSub pat cs).map (· + 1)

/-- Index of the last occurrence of `pat` in `cs`, Python `str.rindex`. -/
def findLastSub (pat : List Char) : List Char → Option ℕ
  | [] => if listIsPre pat [] then some 0 else none
  | c :: cs =>
    match findLastSub pat cs with
    | some i => some (i + 1)
    | none => if listIsPre pat (c :: cs) then some 0 else none

/-- Python `pat in s`. -/
def containsSub (pat cs : List Char) : Bool :=
  (findSub pat cs).isSome

/-- Characters before the first occurrence of `pat` (whole string when
absent): Python `s.split(pat)[0]`. -/
def takeUntilSub (pat cs : List Char) : List Char :=
  match findSub pat cs with
  | some i => cs.take i
  | none => cs

/-- Python `s.split(sep)` for a single-character separator. -/
def pySplitOnChar (sep : Char) : List Char → List (List Char)
  | [] => [[]]
  | c :: cs =>
    if c = sep then [] :: pySplitOnChar sep cs
    else
      match pySplitOnChar sep cs with
      | h :: t => (c :: h) :: t
      | [] => [[c]]

/-- Decimal digits to a natural number. -/
def digitsToNat (cs : List Char) : ℕ :=
  cs.foldl (fun n c => n * 10 + (c.toNat - 48)) 0

/-- Python `int(s)` restricted to plain digit strings (the only shape the
embedded callers ever produce); anything else is a `ValueError`, i.e. `none`. -/
def pyIntDigits (cs : List Char) : Option ℕ :=
  if cs ≠ [] ∧ cs.all Char.isDigit then some (digitsToNat cs) else none

/-- Python slice `s[:n]` on strings. -/
def pyTakeStr (n : ℕ) (s : String) : String :=
  String.mk (s.data.take n)

/-! ### JSON-shaped values and `json.loads`

`PyVal` is the closed variant of JSON-shaped Python values (`None`, `bool`,
numbers, `str`, `list`, `dict`). The parser is a fuel-indexed recursive
descent over `List Char`; fuel is structural so concrete runs reduce by
`rfl`. It covers the JSON grammar used by the providers (no `\uXXXX`
escapes and no `NaN`/`Infinity` extensions, which never occur here). -/

inductive PyVal where
  | null : PyVal
  | bool (b : Bool) : PyVal
  | num (q : ℚ) : PyVal
  | str (s : String) : PyVal
  | arr (l : List PyVal) : PyVal
  | obj (l : List (String × PyVal)) : PyVal

/-- JSON whitespace skip. -/
def skipWs : List Char → List Char
  | [] => []
  | c :: cs => if c = ' ' ∨ c = '\t' ∨ c = '\n' ∨ c = '\r' then skipWs cs else c :: cs

/-- Parse the body of a JSON string after the opening quote; returns the
decoded characters and the input after the closing quote. -/
def parseJStr : ℕ → List Char → Option (List Char × List Char)
  | 0, _ => none
  | _ + 1, [] => none
  | fuel + 1, c :: cs =>
    if c = '"' then some ([], cs)
    else if c = '\\' then
      match cs with
      | [] => none
      | e :: cs2 =>
        let ec : Option Char :=
          if e = '"' then some '"'
          else if e = '\\' then some '\\'
          else if e = '/' then some '/'
          else if e = 'n' then some '\n'
          else if e = 't' then some '\t'
          else if e = 'r' then some '\r'
          else if e = 'b' then some (Char.ofNat 8)
          else if e = 'f' then some (Char.ofNat 12)
          else none
        match ec with
        | none => none
        | some d =>
          match parseJStr fuel cs2 with
          | some (out, rest) => some (d :: out, rest)
          | none => none
    else
      match parseJStr fuel cs with
      | some (out, rest) => some (c :: out, rest)
      | none => none

/-- Parse a JSON number. The integer-only path builds the rational purely by
a cast (so it kernel-reduces); fractions and exponents use `ℚ` arithmetic. -/
def parseJNum (cs : List Char) : Option (ℚ × List Char) :=
  let (sign, cs1) : Bool × List Char :=
    match cs with
    | '-' :: rest => (true, rest)
    | _ => (false, cs)
  let ip := cs1.takeWhile Char.isDigit
  let cs2 := cs1.dropWhile Char.isDigit
  if ip = [] then none
  else if 1 < ip.length ∧ ip.headD '0' = '0' then none
  else
    let ipv : ℕ := digitsToNat ip
    let (base, cs3) : Option ℚ × List Char :=
      match cs2 with
      | '.' :: rest =>
        let fp := rest.takeWhile Char.isDigit
        if fp = [] then (none, rest)
        else ((some ((ipv : ℚ) + (digitsToNat fp : ℚ) / ((10 : ℚ) ^ fp.length))),
              rest.dropWhile Char.isDigit)
      | _ => (some (ipv : ℚ), cs2)
    match base with
    | none => none
    | some b =>
      let (withExp, cs4) : Option ℚ × List Char :=
        match cs3 with
        | 'e' :: rest =>
          match rest with
          | '-' :: r2 =>
            let ep := r2.takeWhile Char.isDigit
            if ep = [] then (none, r2)
            else (some (b / ((10 : ℚ) ^ digitsToNat ep)), r2.dropWhile Char.isDigit)
          | '+' :: r2 =>
            let ep := r2.takeWhile Char.isDigit
            if ep = [] then (none, r2)
            else (some (b * ((10 : ℚ) ^ digitsToNat ep)), r2.dropWhile Char.isDigit)
          | _ =>
            let ep := rest.takeWhile Char.isDigit
            if ep = [] then (none, rest)
            else (some (b * ((10 : ℚ) ^ digitsToNat ep)), rest.dropWhile Char.isDigit)
        | 'E' :: rest =>
          match rest with
          | '-' :: r2 =>
            let ep := r2.takeWhile Char.isDigit
            if ep = [] then (none, r2)
            else (some (b / ((10 : ℚ) ^ digitsToNat ep)), r2.dropWhile Char.isDigit)
          | '+' :: r2 =>
            let ep := r2.takeWhile Char.isDigit
            if ep = [] then (none, r2)
            else (some (b * ((10 : ℚ) ^ digitsToNat ep)), r2.dropWhile Char.isDigit)
          | _ =>
            let ep := rest.takeWhile Char.isDigit
            if ep = [] then (none, rest)
            else (some (b * ((10 : ℚ) ^ digitsToNat ep)), rest.dropWhile Char.isDigit)
        | _ => (some b, cs3)
      match withExp with
      | none => none
      | some v => some (if sign then -v else v, cs4)

mutual

/-- Parse one JSON value. -/
def parseJVal : ℕ → List Char → Option (PyVal × List Char)
  | 0, _ => none
  | fuel + 1, cs =>
    match skipWs cs with
    | [] => none
    | c :: rest =>
      if c = '"' then
        match parseJStr fuel rest with
        | some (s, r) => some (.str (String.mk s), r)
        | none => none
      else if c = '[' then
        parseJArrItems fuel (skipWs rest)
      else if c = '{' then
        parseJObjItems fuel (skipWs rest)
      else if c = 't' then
        match rest with
        | 'r' :: 'u' :: 'e' :: r => some (.bool true, r)
        | _ => none
      else if c = 'f' then
        match rest with
        | 'a' :: 'l' :: 's' :: 'e' :: r => some (.bool false, r)
        | _ => none
      else if c = 'n' then
        match rest with
        | 'u' :: 'l' :: 'l' :: r => some (.null, r)
        | _ => none
      else if c = '-' ∨ c.isDigit then
        match parseJNum (c :: rest) with
        | some (q, r) => some (.num q, r)
        | none => none
      else none

/-- Parse array items after the opening `[` (whitespace already skipped). -/
def parseJArrItems : ℕ → List Char → Option (PyVal × List Char)
  | 0, _ => none
  | fuel + 1, cs =>
    match cs with
    | ']' :: rest => some (.arr [], rest)
    | _ =>
      match parseJVal fuel cs with
      | none => none
      | some (v, r) =>
        match skipWs r with
        | ',' :: r2 =>
          match parseJArrItems fuel (skipWs r2) with
          | some (.arr vs, r3) => some (.arr (v :: vs), r3)
          | _ => none
        | ']' :: r2 => some (.arr [v], r2)
        | _ => none

/-- Parse object members after the opening `{` (whitespace already skipped). -/
def parseJObjItems : ℕ → List Char → Option (PyVal × List Char)
  | 0, _ => none
  | fuel + 1, cs =>
    match cs with
    | '}' :: rest => some (.obj [], rest)
    | '"' :: rest =>
      match parseJStr fuel rest with
      | none => none
      | some (k, r) =>
        match skipWs r with
        | ':' :: r2 =>
          match parseJVal fuel (skipWs r2) with
          | none => none
          | some (v, r3) =>
            match skipWs r3 with
            | ',' :: r4 =>
              match parseJObjItems fuel (skipWs r4) with
              | some (.obj kvs, r5) => some (.obj ((String.mk k, v) :: kvs), r5)
              | _ => none
            | '}' :: r4 => some (.obj [(String.mk k, v)], r4)
            | _ => none
        | _ => none
    | _ => none

end

/-- Python `json.loads`: parse one value and require only whitespace after
it; any failure is a `JSONDecodeError`, i.e. `none`. -/
def json_loads (s : String) : Option PyVal :=
  match parseJVal (2 * s.data.length + 8) s.data with
  | some (v, rest) => if skipWs rest = [] then some v else none
  | none => none

example : json_loads "xyz" = none := rfl
example : json_loads " \x7b\"b\": 2\x7d " = some (.obj [("b", .num 2)]) := rfl
example : json_loads "[\x7b\"ID\":12,\"NS\":3\x7d]" =
    some (.arr [.obj [("ID", .num 12), ("NS", .num 3)]]) := rfl
example : json_loads "map[output:[\x7b\"ID\":12,\"NS\":3\x7d]]" = none := rfl
example : json_loads "[1, true, null, \"a\"]" =
    some (.arr [.num 1, .bool true, .null, .str "a"]) := rfl

/-! ### Response normalizer (`src/geotemp_fetch_mcp.py`)

`RawResult` is the §6 shape of an MCP `CallToolResult`: an optional
`structuredContent` attribute (a JSON-shaped value; an attribute that is
Python `None` or absent is `none` here) and an optional `content` sequence
of blocks. A block's `text` is reached through one of three access
patterns (attribute, mapping key, `model_dump()`), all collapsed into one
optional field, exactly what `_get_block_text` extracts. -/

structure Block where
  text : Option String

structure RawResult where
  structuredContent : Option PyVal
  content : Option (List Block)

/-- `_get_block_text`: `None`-safe text extraction from a content block. -/
def _get_block_text (block : Block) : Option String :=
  block.text

/-- Python truthiness of an optional string (`if text:`). -/
def truthyStr : Option String → Bool
  | none => false
  | some s => !(s.data.isEmpty)

/-- `_parse_tool_result` from `src/geotemp_fetch_mcp.py`: first the first
content block's text (parse as JSON, else `{"raw": text[:500]}`), then the
`structuredContent` fallback (object/array returned directly, strings
parsed or wrapped untruncated), then a retry over every block's text. -/
def _parse_tool_result (result : Option RawResult) : Option PyVal :=
  match result with
  | none => none
  | some r =>
    -- content: list of blocks with .text (first block)
    let step1 : Option PyVal :=
      match r.content with
      | some (b :: _) =>
        match _get_block_text b with
        | some t =>
          if t.data.isEmpty then none
          else
            match json_loads t with
            | some v => some v
            | none => some (.obj [("raw", .str (pyTakeStr 500 t))])
        | none => none
      | _ => none
    match step1 with
    | some v => some v
    | none =>
      -- structuredContent fallback
      let step2 : Option PyVal :=
        match r.structuredContent with
        | some sc =>
          match sc with
          | .obj kvs => some (.obj kvs)
          | .arr vs => some (.arr vs)
          | .str s =>
            match json_loads s with
            | some v => some v
            | none => some (.obj [("raw", .str s)])
          | _ => none
        | none => none
      match step2 with
      | some v => some v
      | none =>
        -- content with multiple blocks: first text that parses as JSON
        match r.content with
        | some blocks =>
          let parts := blocks.filterMap fun b =>
            match _get_block_text b with
            | some t => if t.data.isEmpty then none else some t
            | none => none
          (parts.map json_loads).foldr (fun v acc => match v with
            | some v => some v
            | none => acc) none
        | none => none

example :
    _parse_tool_result (some { structuredContent := some (.obj [("a", .num 1)]),
                               content := some [{ text := some "\x7b\"b\": 2\x7d" }] }) =
    some (.obj [("b", .num 2)]) := rfl

example :
    _parse_tool_result (some { structuredContent := some (.obj [("a", .num 1)]),
                               content := some [{ text := some "xyz" }] }) =
    some (.obj [("raw", .str "xyz")]) := rfl

example :
    _parse_tool_result (some { structuredContent := some (.str "abc"),
                               content := none }) =
    some (.obj [("raw", .str "abc")]) := rfl

/-! ### Bracket-balancing array fallback (`src/trivago/fetch_hotels_mcp.py`) -/

/-- Bracket-depth scan of `extract_array_from_text`: starting at an opening
`[`, return the length of the prefix ending at the matching `]` (counting
only bracket characters, as the Python loop does). -/
def findBalanced : List Char → ℕ → ℕ → Option ℕ
  | [], _, _ => none
  | c :: rest, depth, n =>
    if c = '[' then findBalanced rest (depth + 1) (n + 1)
    else if c = ']' then
      if depth = 1 then some (n + 1)
      else findBalanced rest (depth - 1) (n + 1)
    else findBalanced rest depth (n + 1)

/-- `extract_array_from_text`: locate the `output:[` marker (else the first
`[`), scan bracket depth to the matching `]`, and `json.loads` exactly that
substring; a parse failure inside the chosen branch yields `None` without
trying the other branch. -/
def extract_array_from_text (s : String) : Option PyVal :=
  let cs := s.data
  match findSub "output:[".data cs with
  | some idx =>
    let start := idx + 7   -- idx + len("output:"), the position of "["
    let sub := cs.drop start
    match findBalanced sub 0 0 with
    | some len => json_loads (String.mk (sub.take len))
    | none => none
  | none =>
    match findSub ['['] cs with
    | some start =>
      let sub := cs.drop start
      match findBalanced sub 0 0 with
      | some len => json_loads (String.mk (sub.take len))
      | none => none
    | none => none

example :
    extract_array_from_text "map[output:[\x7b\"ID\":12,\"NS\":3\x7d]]" =
    some (.arr [.obj [("ID", .num 12), ("NS", .num 3)]]) := rfl

/-! ### Nightly-price parser (`_parse_price_night` in `src/travel_helper.py`) -/

/-- A lodging offer; the two price spellings mirror the dict keys
`"Price Per Night"` / `"price_per_night"` probed by the source. -/
structure Hotel where
  name : String
  pricePerNight : Option String
  price_per_night : Option String

/-- Python `a or b or ""` over optional strings (`None` and `""` are falsy). -/
def firstTruthyStr (a b : Option String) : String :=
  match a with
  | some s => if s.data.isEmpty then (match b with
      | some t => if t.data.isEmpty then "" else t
      | none => "") else s
  | none =>
    match b with
    | some t => if t.data.isEmpty then "" else t
    | none => ""

/-- Character class of the regex `[\d.,]+`. -/
def isPriceChar (c : Char) : Bool :=
  c.isDigit || c = '.' || c = ','

/-- `re.search(r"[\d.,]+", s)`: the first maximal run of digits, dots and
commas, or `none` when no such character occurs. -/
def reSearchPriceRun (cs : List Char) : Option (List Char) :=
  let run := (cs.dropWhile (fun c => !isPriceChar c)).takeWhile isPriceChar
  if run.isEmpty then none else some run

/-- Python `float()` on a run drawn from `[\d.,]+`: commas, a second dot,
or a digitless string raise `ValueError` (`none`); otherwise the value is
`intpart.fracpart`. -/
def pyFloatOfRun (cs : List Char) : Option ℚ :=
  if cs.any (· = ',') then none
  else if !cs.all (fun c => c.isDigit || c = '.') then none
  else if cs.count '.' = 0 then
    if cs.isEmpty then none else some (digitsToNat cs : ℚ)
  else if cs.count '.' = 1 then
    let ip := cs.takeWhile (· ≠ '.')
    let fp := (cs.dropWhile (· ≠ '.')).tail
    if ip.isEmpty ∧ fp.isEmpty then none
    else if fp.isEmpty then some (digitsToNat ip : ℚ)
    else some ((digitsToNat ip : ℚ) + (digitsToNat fp : ℚ) / ((10 : ℚ) ^ fp.length))
  else none

/-- `_parse_price_night`: take the first truthy price field, replace `,`
with `.`, extract the first `[\d.,]+` run and parse it as a float;
missing/invalid input gives `float("inf")`, modeled as `⊤`. -/
def _parse_price_night (h : Hotel) : WithTop ℚ :=
  let raw := firstTruthyStr h.pricePerNight h.price_per_night
  if raw.data.isEmpty then ⊤
  else
    match reSearchPriceRun (raw.data.map fun c => if c = ',' then '.' else c) with
    | none => ⊤
    | some run =>
      match pyFloatOfRun run with
      | some q => (q : WithTop ℚ)
      | none => ⊤

example : _parse_price_night { name := "a", pricePerNight := some "€77", price_per_night := none } =
    (77 : ℚ) := rfl
example : _parse_price_night { name := "a", pricePerNight := some "1.234,50", price_per_night := none } =
    ⊤ := rfl
example : _parse_price_night { name := "a", pricePerNight := none, price_per_night := none } =
    ⊤ := rfl
example : _parse_price_night { name := "a", pricePerNight := some "n/a", price_per_night := none } =
    ⊤ := rfl

/-! ### Flight data model and trip search (`src/travel_helper.py`) -/

/-- A Python `datetime`: the proleptic-Gregorian ordinal of its date plus
hour and minute (ordinal 1, `0001-01-01`, is a Monday, as in Python). -/
structure PyDateTime where
  ordinal : ℕ
  hour : ℕ
  minute : ℕ
deriving DecidableEq

/-- Python `datetime.weekday()`: Monday = 0. -/
def pyWeekday (dt : PyDateTime) : ℕ :=
  (dt.ordinal + 6) % 7

/-- `date.weekday()` for a bare ordinal date. -/
def dateWeekday (ordinal : ℕ) : ℕ :=
  (ordinal + 6) % 7

/-- One flight leg as produced by the Ryanair provider. -/
structure Leg where
  origin : String
  originFull : String
  destination : String
  destinationFull : String
  departureTime : PyDateTime
  price : ℚ
deriving DecidableEq

/-- A provider round trip (outbound + inbound leg). -/
structure Trip where
  outbound : Leg
  inbound : Leg
deriving DecidableEq

-- Configuration constants of `src/travel_helper.py`.
def ORIGIN_AIRPORTS : List (String × String) := [("CGN", "Köln"), ("NRN", "Düsseldorf Weeze")]
def DAYS_AHEAD : ℕ := 120
def RETURN_DAYS_MIN : ℕ := 2
def RETURN_DAYS_MAX : ℕ := 4
def THURSDAY : ℕ := 3
def FRIDAY : ℕ := 4
def OUTBOUND_THURSDAY_AFTER_HOUR : ℕ := 17
def OUTBOUND_FRIDAY_AFTER_HOUR : ℕ := 23

/-- `_outbound_departure_allowed`: Thursday with hour ≥ 17 or Friday with
hour ≥ 23. -/
def _outbound_departure_allowed (dt : PyDateTime) : Bool :=
  let wd := pyWeekday dt
  if wd = THURSDAY then decide (OUTBOUND_THURSDAY_AFTER_HOUR ≤ dt.hour)
  else if wd = FRIDAY then decide (OUTBOUND_FRIDAY_AFTER_HOUR ≤ dt.hour)
  else false

/-- A collected candidate `(outbound, inbound, outbound_price)`. -/
abbrev Candidate := Leg × Leg × ℚ

/-- The Python sort key of `collect_outbound_flights`:
`(x[2] + x[1].price, x[0].departureTime.date(), x[0].destination)`. -/
def trip_sort_key (c : Candidate) : ℚ × ℕ × String :=
  (c.2.2 + c.2.1.price, c.1.departureTime.ordinal, c.1.destination)

/-- Code-point lexicographic `≤` on character lists (Python string order). -/
def strLeB : List Char → List Char → Bool
  | [], _ => true
  | _ :: _, [] => false
  | a :: as, b :: bs =>
    if a.toNat < b.toNat then true
    else if b.toNat < a.toNat then false
    else strLeB as bs

/-- Python `s <= t` on strings. -/
def pyStrLe (a b : String) : Prop :=
  strLeB a.data b.data = true

instance : DecidableRel pyStrLe := fun a b =>
  inferInstanceAs (Decidable (strLeB a.data b.data = true))

/-- Python tuple `≤` on the sort key: lexicographic on
(total price, outbound date, destination code). -/
def keyLe (a b : ℚ × ℕ × String) : Prop :=
  a.1 < b.1 ∨ (a.1 = b.1 ∧ (a.2.1 < b.2.1 ∨ (a.2.1 = b.2.1 ∧ pyStrLe a.2.2 b.2.2)))

instance : DecidableRel keyLe := fun a b => by
  unfold keyLe; infer_instance

/-- The ranking relation on candidates used by `list.sort(key=...)`. -/
def candLe (a b : Candidate) : Prop :=
  keyLe (trip_sort_key a) (trip_sort_key b)

instance : DecidableRel candLe := fun a b =>
  inferInstanceAs (Decidable (keyLe (trip_sort_key a) (trip_sort_key b)))

theorem strLeB_refl : ∀ as, strLeB as as = true := by
  intro as
  induction as with
  | nil => rfl
  | cons a as ih => simp [strLeB, ih]

theorem strLeB_total : ∀ as bs, strLeB as bs = true ∨ strLeB bs as = true := by
  intro as
  induction as with
  | nil => intro bs; left; rfl
  | cons a as ih =>
    intro bs
    cases bs with
    | nil => right; rfl
    | cons b bs =>
      rcases Nat.lt_trichotomy a.toNat b.toNat with h | h | h
      · left; simp [strLeB, h]
      · have hab : ¬ a.toNat < b.toNat := by omega
        have hba : ¬ b.toNat < a.toNat := by omega
        rcases ih bs with h2 | h2
        · left; simp [strLeB, hab, hba, h2]
        · right; simp [strLeB, hab, hba, h2]
      · right; simp [strLeB, h]

theorem strLeB_trans : ∀ as bs cs, strLeB as bs = true → strLeB bs cs = true →
    strLeB as cs = true := by
  intro as
  induction as with
  | nil => intro bs cs _ _; rfl
  | cons a as ih =>
    intro bs cs h1 h2
    cases bs with
    | nil => simp [strLeB] at h1
    | cons b bs =>
      cases cs with
      | nil => simp [strLeB] at h2
      | cons c cs =>
        simp only [strLeB] at h1 h2 ⊢
        by_cases hab : a.toNat < b.toNat
        · by_cases hbc : b.toNat < c.toNat
          · have : a.toNat < c.toNat := by omega
            simp [this]
          · simp only [hbc, if_false] at h2
            by_cases hcb : c.toNat < b.toNat
            · simp [hcb] at h2
            · have : a.toNat < c.toNat := by omega
              simp [this]
        · simp only [hab, if_false] at h1
          by_cases hba : b.toNat < a.toNat
          · simp [hba] at h1
          · simp only [hba, if_false] at h1
            have hab2 : a.toNat = b.toNat := by omega
            by_cases hbc : b.toNat < c.toNat
            · have : a.toNat < c.toNat := by omega
              simp [this]
            · simp only [hbc, if_false] at h2
              by_cases hcb : c.toNat < b.toNat
              · simp [hcb] at h2
              · simp only [hcb, if_false] at h2
                have hac : ¬ a.toNat < c.toNat := by omega
                have hca : ¬ c.toNat < a.toNat := by omega
                simp only [hac, hca, if_false]
                exact ih bs cs h1 h2

theorem keyLe_refl (a : ℚ × ℕ × String) : keyLe a a := by
  right; exact ⟨rfl, Or.inr ⟨rfl, strLeB_refl a.2.2.data⟩⟩

theorem keyLe_total (a b : ℚ × ℕ × String) : keyLe a b ∨ keyLe b a := by
  rcases lt_trichotomy a.1 b.1 with h | h | h
  · left; left; exact h
  · rcases Nat.lt_trichotomy a.2.1 b.2.1 with h2 | h2 | h2
    · left; right; exact ⟨h, Or.inl h2⟩
    · rcases strLeB_total a.2.2.data b.2.2.data with h3 | h3
      · left; right; exact ⟨h, Or.inr ⟨h2, h3⟩⟩
      · right; right; exact ⟨h.symm, Or.inr ⟨h2.symm, h3⟩⟩
    · right; right; exact ⟨h.symm, Or.inl h2⟩
  · right; left; exact h

theorem keyLe_trans {a b c : ℚ × ℕ × String} (h1 : keyLe a b) (h2 : keyLe b c) :
    keyLe a c := by
  rcases h1 with h1 | ⟨e1, h1⟩
  · rcases h2 with h2 | ⟨e2, _⟩
    · exact Or.inl (lt_trans h1 h2)
    · exact Or.inl (e2 ▸ h1)
  · rcases h2 with h2 | ⟨e2, h2⟩
    · exact Or.inl (e1 ▸ h2)
    · refine Or.inr ⟨e1.trans e2, ?_⟩
      rcases h1 with h1 | ⟨f1, h1⟩
      · rcases h2 with h2 | ⟨f2, _⟩
        · exact Or.inl (lt_trans h1 h2)
        · exact Or.inl (f2 ▸ h1)
      · rcases h2 with h2 | ⟨f2, h2⟩
        · exact Or.inl (f1 ▸ h2)
        · exact Or.inr ⟨f1.trans f2, strLeB_trans _ _ _ h1 h2⟩

instance : IsTotal Candidate candLe :=
  ⟨fun a b => keyLe_total (trip_sort_key a) (trip_sort_key b)⟩

instance : IsTrans Candidate candLe :=
  ⟨fun _ _ _ h1 h2 => keyLe_trans h1 h2⟩

/-- Python `list.sort(key=...)` is a stable sort; modeled by Mathlib's
(stable) insertion sort under the key relation. -/
def pySortCandidates (l : List Candidate) : List Candidate :=
  List.insertionSort candLe l

/-- `collect_outbound_flights`: per origin and day offset, skip dates that
are neither Thursday nor Friday, request the provider with the Thursday
`17:00`–`23:59` or Friday `11:00`–`23:59` window and the `[+2, +4]` return
range, collect `(outbound, inbound, outbound.price)`, and stably sort by
`(total price, outbound date, destination)`. The provider is abstracted as
a function of `(origin, search_date, return_from, return_to, time_from,
time_to)`; the display-only `_origin_airport`/`_origin_code` tagging is
omitted. -/
def collect_outbound_flights
    (provider : String → ℕ → ℕ → ℕ → ℕ × ℕ → ℕ × ℕ → List Trip)
    (today : ℕ) (days_ahead : Option ℕ) : List Candidate :=
  let n_days := days_ahead.getD DAYS_AHEAD
  pySortCandidates <|
    ORIGIN_AIRPORTS.flatMap fun ap =>
      (List.range n_days).flatMap fun day_offset =>
        let search_date := today + day_offset
        let wd := dateWeekday search_date
        if wd = THURSDAY ∨ wd = FRIDAY then
          let window : (ℕ × ℕ) × ℕ × ℕ :=
            if wd = THURSDAY then ((17, 0), (23, 59)) else ((11, 0), (23, 59))
          (provider ap.1 search_date (search_date + RETURN_DAYS_MIN)
              (search_date + RETURN_DAYS_MAX) window.1 window.2).map
            fun t => (t.outbound, t.inbound, t.outbound.price)
        else []

/-- Lexicographic `≤` on a time of day `(hour, minute)`, for stating that a
departure lies inside a requested provider window. -/
def timeOfDayLe (a b : ℕ × ℕ) : Prop :=
  a.1 < b.1 ∨ (a.1 = b.1 ∧ a.2 ≤ b.2)

/-! ### Stability of the ranking sort -/

theorem filter_orderedInsert {α : Type} (r : α → α → Prop) [DecidableRel r]
    (p : α → Bool) (h : ∀ x y, p x = true → p y = true → r x y) (a : α) :
    ∀ l : List α,
      (l.orderedInsert r a).filter p = if p a then a :: l.filter p else l.filter p := by
  intro l
  induction l with
  | nil =>
    rw [List.orderedInsert]
    cases hpa : p a <;> simp [List.filter_cons, hpa]
  | cons b l ih =>
    by_cases hr : r a b
    · rw [List.orderedInsert, if_pos hr]
      cases hpa : p a <;> simp [List.filter_cons, hpa]
    · have hkey : ¬(p a = true ∧ p b = true) := fun hpq => hr (h a b hpq.1 hpq.2)
      rw [List.orderedInsert, if_neg hr]
      cases hpb : p b
      · simp only [List.filter_cons, hpb, if_neg Bool.false_ne_true]
        simpa using ih
      · have hpa : p a = false := by
          cases hpa : p a
          · rfl
          · exact absurd ⟨hpa, hpb⟩ hkey
        simp [List.filter_cons, ih, hpa, hpb]

theorem filter_insertionSort {α : Type} (r : α → α → Prop) [DecidableRel r]
    (p : α → Bool) (h : ∀ x y, p x = true → p y = true → r x y) :
    ∀ l : List α, (List.insertionSort r l).filter p = l.filter p := by
  intro l
  induction l with
  | nil => rfl
  | cons a l ih =>
    simp only [List.insertionSort, filter_orderedInsert r p h, ih, List.filter_cons]

/-! ### Lodging enrichment (`src/travel_helper.py`)

The remote Trivago session is abstracted at the two calls the source
makes through it: `get_location_suggestion` (one remote lookup per query
string, returning an `(id, ns)` `LocationKey` or nothing) and
`search_accommodations`. A `ProviderError` (timeout/transport failure) at
either call is an `Except.error`; in Python it is an uncaught exception.
Every function also returns the trace of location-suggestion query strings
issued, so that dedup claims can be stated. Hotel-stay dates travel as
date ordinals (the source passes them as ISO strings, an injective image
of the date, never inspected by this layer). -/

inductive SessErr where
  | timeout : SessErr
  | transport : SessErr
deriving DecidableEq

structure TrivagoSession where
  suggest : String → Except SessErr (Option (ℤ × ℤ))
  search : ℤ → ℤ → ℕ → ℕ → Except SessErr (List Hotel)

/-- `_city_name_for_trivago`: strip, then drop a trailing `" (code)"`. -/
def _city_name_for_trivago (destination : String) : String :=
  let s := pyStrip destination.data
  if containsSub " (".data s ∧ s.getLast? = some ')' then
    match findLastSub " (".data s with
    | some i => String.mk (pyStrip (s.take i))
    | none => String.mk s
  else String.mk s

/-- `_trivago_query_for_destination`: the city-only query, then — when it
contains `" - "` — the part before the first `" - "`. -/
def _trivago_query_for_destination (destination_city : String) : List String :=
  let city_only := _city_name_for_trivago destination_city
  if containsSub " - ".data city_only.data then
    [city_only, String.mk (pyStrip (takeUntilSub " - ".data city_only.data))]
  else [city_only]

/-- The `for query in ...: suggestion = await get_location_suggestion(...)`
loop: try each query until one yields a suggestion, recording every remote
lookup; a provider error propagates. -/
def trySuggestions (s : TrivagoSession) :
    List String → List String × Except SessErr (Option (ℤ × ℤ))
  | [] => ([], .ok none)
  | q :: qs =>
    match s.suggest q with
    | .error e => ([q], .error e)
    | .ok (some x) => ([q], .ok (some x))
    | .ok none =>
      let (log, r) := trySuggestions s qs
      (q :: log, r)

/-- The stable `sorted(hotels, key=_parse_price_night)` relation. -/
def hotelLe (a b : Hotel) : Prop :=
  _parse_price_night a ≤ _parse_price_night b

instance : DecidableRel hotelLe := fun a b =>
  inferInstanceAs (Decidable (_parse_price_night a ≤ _parse_price_night b))

/-- `_top_hotels_for_destination`: resolve the location (queries in order,
first success wins; no result means an empty lodging list), search
accommodations for the stay, and keep the `n` cheapest by nightly price. -/
def _top_hotels_for_destination (s : TrivagoSession) (destination_city : String)
    (arrival_date departure_date : ℕ) (n : ℕ) :
    List String × Except SessErr (List Hotel) :=
  let (log, r) := trySuggestions s (_trivago_query_for_destination destination_city)
  match r with
  | .error e => (log, .error e)
  | .ok none => (log, .ok [])
  | .ok (some (location_id, location_ns)) =>
    match s.search location_id location_ns arrival_date departure_date with
    | .error e => (log, .error e)
    | .ok hotels =>
      if hotels.isEmpty then (log, .ok [])
      else (log, .ok ((List.insertionSort hotelLe hotels).take n))

/-- One enriched-trip record of `fetch_hotels_for_cheapest_flights`. -/
structure HotelResult where
  destination : String
  arrival : ℕ
  departure : ℕ
  flight : Leg
  return_flight : Leg
  price : ℚ
  hotels : List Hotel

/-- `destinationFull.split(",")[0].strip() if "," in destinationFull else
destinationFull` (the task derivation in `fetch_hotels_for_cheapest_flights`). -/
def destCityOfDestinationFull (s : String) : String :=
  if containsSub [','] s.data then String.mk (pyStrip (takeUntilSub [','] s.data)) else s

/-- `fetch_hotels_for_cheapest_flights`: per candidate, derive the task
(destination city, stay window = outbound date to return date) and fetch
its top hotels sequentially. The per-candidate fetch is NOT wrapped in any
try/except in the source, so an error propagates and aborts the whole
phase, which is what the `Except` threading states. -/
def fetch_hotels_for_cheapest_flights (s : TrivagoSession) (hotels_per_flight : ℕ) :
    List Candidate → List String × Except SessErr (List HotelResult)
  | [] => ([], .ok [])
  | c :: cs =>
    let dest_city := destCityOfDestinationFull c.1.destinationFull
    let arrival := c.1.departureTime.ordinal
    let departure := c.2.1.departureTime.ordinal
    let (log, r) := _top_hotels_for_destination s dest_city arrival departure hotels_per_flight
    match r with
    | .error e => (log, .error e)
    | .ok hotels =>
      let (log2, r2) := fetch_hotels_for_cheapest_flights s hotels_per_flight cs
      (log ++ log2,
        match r2 with
        | .error e => .error e
        | .ok rest =>
          .ok ({ destination := dest_city, arrival := arrival, departure := departure,
                 flight := c.1, return_flight := c.2.1, price := c.2.2,
                 hotels := hotels } :: rest))

/-! ### Weather/attraction dedup (`_fetch_geotemp_for_trips`) -/

/-- `_dest_city_from_flight`. -/
def _dest_city_from_flight (ob : Leg) : String :=
  let dest_full := ob.destinationFull
  if containsSub [','] dest_full.data then String.mk (pyStrip (takeUntilSub [','] dest_full.data))
  else if (pyStrip dest_full.data).isEmpty then ob.destination
  else String.mk (pyStrip dest_full.data)

/-- The weather dedup key `(destination, arrival date, departure date)`. -/
abbrev WeatherKey := String × ℕ × ℕ

/-- The `weather_keys` list built at the top of `_fetch_geotemp_for_trips`:
from the hotel results when any exist, else from the flights directly. -/
def geotemp_weather_keys (cheapest_flights : List Candidate)
    (hotel_results : List HotelResult) : List WeatherKey :=
  if hotel_results.isEmpty then
    cheapest_flights.map fun c =>
      (_dest_city_from_flight c.1, c.1.departureTime.ordinal, c.2.1.departureTime.ordinal)
  else
    hotel_results.map fun r => (r.destination, r.arrival, r.departure)

/-- The cache-guarded query loop (`if key not in cache: fetch`), returning
the trace of keys for which a remote call is actually issued. -/
def cachedCalls {α : Type} [DecidableEq α] : List α → List α → List α
  | [], _ => []
  | k :: ks, cache =>
    if k ∈ cache then cachedCalls ks cache
    else k :: cachedCalls ks (k :: cache)

/-- `_fetch_geotemp_for_trips`, instrumented: the trace of weather keys
remotely queried (guarded by the `weather_by_key` dict) and the trace of
destinations remotely queried for attractions (iteration over the
`destinations` set, guarded by `attractions_by_dest`). -/
def _fetch_geotemp_for_trips (cheapest_flights : List Candidate)
    (hotel_results : List HotelResult) : List WeatherKey × List String :=
  let weather_keys := geotemp_weather_keys cheapest_flights hotel_results
  let destinations := weather_keys.map (·.1)
  (cachedCalls weather_keys [], cachedCalls destinations [])

theorem cachedCalls_nodup {α : Type} [DecidableEq α] :
    ∀ (ks cache : List α),
      (cachedCalls ks cache).Nodup ∧ ∀ k ∈ cachedCalls ks cache, k ∉ cache := by
  intro ks
  induction ks with
  | nil => intro cache; exact ⟨List.nodup_nil, by simp [cachedCalls]⟩
  | cons k ks ih =>
    intro cache
    by_cases hk : k ∈ cache
    · simpa [cachedCalls, hk] using ih cache
    · simp only [cachedCalls, if_neg hk]
      obtain ⟨hnd, hout⟩ := ih (k :: cache)
      refine ⟨List.nodup_cons.mpr ⟨fun hmem => ?_, hnd⟩, ?_⟩
      · exact (hout k hmem) (List.mem_cons_self k cache)
      · intro x hx
        rcases List.mem_cons.mp hx with rfl | hx
        · exact hk
        · exact fun hc => (hout x hx) (List.mem_cons_of_mem _ hc)

theorem mem_cachedCalls {α : Type} [DecidableEq α] :
    ∀ (ks cache : List α) (k : α), k ∈ cachedCalls ks cache ↔ k ∈ ks ∧ k ∉ cache := by
  intro ks
  induction ks with
  | nil => intro cache k; simp [cachedCalls]
  | cons a ks ih =>
    intro cache k
    by_cases ha : a ∈ cache
    · rw [cachedCalls, if_pos ha, ih]
      constructor
      · rintro ⟨hks, hc⟩; exact ⟨List.mem_cons_of_mem _ hks, hc⟩
      · rintro ⟨hmem, hc⟩
        rcases List.mem_cons.mp hmem with rfl | hks
        · exact absurd ha hc
        · exact ⟨hks, hc⟩
    · rw [cachedCalls, if_neg ha]
      constructor
      · intro hmem
        rcases List.mem_cons.mp hmem with rfl | hmem
        · exact ⟨List.mem_cons_self _ _, ha⟩
        · obtain ⟨hks, hc⟩ := (ih _ k).mp hmem
          refine ⟨List.mem_cons_of_mem _ hks, fun hcc => hc (List.mem_cons_of_mem _ hcc)⟩
      · rintro ⟨hmem, hc⟩
        rcases List.mem_cons.mp hmem with rfl | hks
        · exact List.mem_cons_self _ _
        · by_cases hak : k = a
          · subst hak; exact List.mem_cons_self _ _
          · exact List.mem_cons_of_mem _ ((ih _ k).mpr ⟨hks, by
              intro hcc
              rcases List.mem_cons.mp hcc with h | h
              · exact hak h
              · exact hc h⟩)

/-! ### Weather query construction (`get_weather` + its call site) -/

/-- `int(start_iso.split("-")[1])` guarded by `try/except`: the month
component of the trip's arrival date, when it parses. -/
def month_of_start_iso (start_iso : String) : Option ℕ :=
  match (pySplitOnChar '-' start_iso.data).get? 1 with
  | some part => pyIntDigits part
  | none => none

/-- `dest.split(" - ")[0].strip() if " - " in dest else dest`. -/
def geotemp_dest_api (dest : String) : String :=
  if containsSub " - ".data dest.data then
    String.mk (pyStrip (takeUntilSub " - ".data dest.data))
  else dest

/-- The argument shape `get_weather` sends the remote provider: either
`{city_name, month}` or `{city_name, start_date, end_date}`. -/
inductive WeatherParams where
  | byMonth (city_name : String) (month : ℕ) : WeatherParams
  | byRange (city_name start_date end_date : String) : WeatherParams
deriving DecidableEq

/-- The branch at the top of `get_weather`: with a month, the params are
only `{city_name, month}`; the dates are sent only when `month is None`. -/
def get_weather_params (city_name start_date end_date : String)
    (month : Option ℕ) : WeatherParams :=
  match month with
  | some m => .byMonth city_name m
  | none => .byRange city_name start_date end_date

/-- The weather query `_fetch_geotemp_for_trips` issues for one key:
month extracted from the arrival ISO date, city reduced to its `" - "`
prefix. -/
def weather_query_params (dest start_iso end_iso : String) : WeatherParams :=
  get_weather_params (geotemp_dest_api dest) start_iso end_iso (month_of_start_iso start_iso)

example : weather_query_params "Faro" "2026-03-05" "2026-03-08" =
    .byMonth "Faro" 3 := by decide

/-! ## Claim theorems -/

/-- C9: on the text `map[output:[{"ID":12,"NS":3}]]`, which is not
parseable as top-level JSON, `extract_array_from_text` locates the
`output:[` marker, scans bracket depth to the matching `]`, JSON-parses
exactly that substring, and returns the array `[{"ID":12,"NS":3}]`. -/
theorem C9_bracket_balancing_fallback :
    json_loads "map[output:[\x7b\"ID\":12,\"NS\":3\x7d]]" = none ∧
    extract_array_from_text "map[output:[\x7b\"ID\":12,\"NS\":3\x7d]]" =
      some (.arr [.obj [("ID", .num 12), ("NS", .num 3)]]) :=
  ⟨rfl, rfl⟩

/-- C10: whenever the arrival ISO date's month component parses, the
weather provider is queried with only `(city_name, month)` — the stay
dates are never sent — so trips to the same destination whose arrival
dates share a calendar month (even across years) issue identical weather
queries. -/
theorem C10_weather_query_month_only (dest s1 e1 s2 e2 : String) (m : ℕ)
    (h1 : month_of_start_iso s1 = some m) (h2 : month_of_start_iso s2 = some m) :
    weather_query_params dest s1 e1 = WeatherParams.byMonth (geotemp_dest_api dest) m ∧
    weather_query_params dest s1 e1 = weather_query_params dest s2 e2 := by
  unfold weather_query_params get_weather_params
  rw [h1, h2]
  exact ⟨rfl, rfl⟩

/-- Witness for C10: two trips to Faro arriving in March of different
years produce the same `{city_name, month}` weather query. -/
theorem C10_weather_query_month_only_witness :
    month_of_start_iso "2026-03-05" = some 3 ∧
    month_of_start_iso "2027-03-20" = some 3 ∧
    weather_query_params "Faro" "2026-03-05" "2026-03-08" = WeatherParams.byMonth "Faro" 3 ∧
    weather_query_params "Faro" "2026-03-05" "2026-03-08" =
      weather_query_params "Faro" "2027-03-20" "2027-03-23" :=
  have h := C10_weather_query_month_only "Faro" "2026-03-05" "2026-03-08"
    "2027-03-20" "2027-03-23" 3 rfl rfl
  ⟨rfl, rfl, h.1, h.2⟩

/-- C2 counterexample: on `"1.234,50"` the comma is first normalized to a
dot, `re.search` extracts `"1.234.50"`, and `float("1.234.50")` raises, so
`_parse_price_night` returns infinity — not the `1234.50` the claim
states. -/
theorem C2_price_counterexample :
    _parse_price_night { name := "h", pricePerNight := some "1.234,50",
                         price_per_night := none } = ⊤ ∧
    (⊤ : WithTop ℚ) ≠ ((1234.5 : ℚ) : WithTop ℚ) :=
  ⟨rfl, WithTop.top_ne_coe⟩

/-- C2 (amended): the nightly-price parser is total and `"€77" ↦ 77.0`;
absent, empty and `"n/a"` inputs map to infinity; and `"1.234,50"` also
maps to infinity, because the comma-to-dot normalization yields the
unparseable `"1.234.50"`. -/
theorem C2_price_parser_reference_values :
    _parse_price_night { name := "h", pricePerNight := some "€77",
                         price_per_night := none } = ((77 : ℚ) : WithTop ℚ) ∧
    _parse_price_night { name := "h", pricePerNight := none,
                         price_per_night := none } = ⊤ ∧
    _parse_price_night { name := "h", pricePerNight := some "",
                         price_per_night := none } = ⊤ ∧
    _parse_price_night { name := "h", pricePerNight := some "n/a",
                         price_per_night := none } = ⊤ ∧
    _parse_price_night { name := "h", pricePerNight := some "1.234,50",
                         price_per_night := none } = ⊤ :=
  ⟨rfl, rfl, rfl, rfl, rfl⟩

/-- C5: the candidate ranking is a stable ascending sort by
`(outbound price + inbound price, outbound date, destination code)`: the
output is a permutation of the input, pairwise ordered by that
lexicographic key, and candidates with fully equal keys keep their
original relative order. -/
theorem C5_ranking_stable_lex_sort (l : List Candidate) :
    (pySortCandidates l).Perm l ∧
    (pySortCandidates l).Pairwise
      (fun a b => keyLe (trip_sort_key a) (trip_sort_key b)) ∧
    ∀ k : ℚ × ℕ × String,
      (pySortCandidates l).filter (fun c => decide (trip_sort_key c = k)) =
        l.filter (fun c => decide (trip_sort_key c = k)) := by
  refine ⟨List.perm_insertionSort candLe l, List.sorted_insertionSort candLe l, ?_⟩
  intro k
  exact filter_insertionSort candLe _
    (fun x y hx hy => by
      have hx2 : trip_sort_key x = k := of_decide_eq_true hx
      have hy2 : trip_sort_key y = k := of_decide_eq_true hy
      show keyLe (trip_sort_key x) (trip_sort_key y)
      rw [hx2, hy2]
      exact keyLe_refl k) l

/-- C7: within one enrichment run the weather provider is called at most
once per `(destination, arrival, departure)` key and the attractions
provider at most once per destination; every key/destination occurring in
the input triggers exactly its first call, later duplicates are served
from the in-run cache. -/
theorem C7_geotemp_dedup (cheapest_flights : List Candidate)
    (hotel_results : List HotelResult) :
    (_fetch_geotemp_for_trips cheapest_flights hotel_results).1.Nodup ∧
    (∀ k : WeatherKey,
      k ∈ (_fetch_geotemp_for_trips cheapest_flights hotel_results).1 ↔
        k ∈ geotemp_weather_keys cheapest_flights hotel_results) ∧
    (_fetch_geotemp_for_trips cheapest_flights hotel_results).2.Nodup ∧
    (∀ d : String,
      d ∈ (_fetch_geotemp_for_trips cheapest_flights hotel_results).2 ↔
        d ∈ (geotemp_weather_keys cheapest_flights hotel_results).map (·.1)) := by
  refine ⟨(cachedCalls_nodup _ []).1, fun k => ?_, (cachedCalls_nodup _ []).1, fun d => ?_⟩
  · rw [show (_fetch_geotemp_for_trips cheapest_flights hotel_results).1 =
        cachedCalls (geotemp_weather_keys cheapest_flights hotel_results) [] from rfl,
      mem_cachedCalls]
    simp
  · rw [show (_fetch_geotemp_for_trips cheapest_flights hotel_results).2 =
        cachedCalls ((geotemp_weather_keys cheapest_flights hotel_results).map (·.1)) [] from rfl,
      mem_cachedCalls]
    simp

/-! ### C1: the Friday search window -/

/-- A provider trip departing Friday at 12:00 (ordinal 5 is a Friday). -/
def fridayNoonOutbound : Leg :=
  { origin := "CGN", originFull := "Köln, Germany", destination := "FAO",
    destinationFull := "Faro, Portugal",
    departureTime := { ordinal := 5, hour := 12, minute := 0 }, price := 20 }

/-- Its return leg three nights later. -/
def fridayNoonInbound : Leg :=
  { origin := "FAO", originFull := "Faro, Portugal", destination := "CGN",
    destinationFull := "Köln, Germany",
    departureTime := { ordinal := 8, hour := 10, minute := 0 }, price := 25 }

/-- A flight provider that honors the requested windows: it returns the
Friday-noon trip only for the `(CGN, ordinal 5)` query, whose requested
Friday time window is `11:00`–`23:59`. -/
def fridayNoonProvider : String → ℕ → ℕ → ℕ → ℕ × ℕ → ℕ × ℕ → List Trip :=
  fun code search_date _ _ _ _ =>
    if code = "CGN" then
      if search_date = 5 then
        [{ outbound := fridayNoonOutbound, inbound := fridayNoonInbound }]
      else []
    else []

/-- C1: `collect_outbound_flights` requests the Friday window starting at
`11:00`, so a Friday 12:00 departure — inside the requested window but
rejected by the documented admission rule `_outbound_departure_allowed`
(Friday hour ≥ 23) — is emitted. This exhibits the divergence between the
code's `"11:00"` window and its own docstrings/constants (`Fri after
11 pm`, `OUTBOUND_FRIDAY_AFTER_HOUR = 23`). -/
theorem C1_friday_window_admits_disallowed_departure :
    collect_outbound_flights fridayNoonProvider 5 (some 1) =
      [(fridayNoonOutbound, fridayNoonInbound, 20)] ∧
    dateWeekday fridayNoonOutbound.departureTime.ordinal = FRIDAY ∧
    timeOfDayLe (11, 0)
      (fridayNoonOutbound.departureTime.hour, fridayNoonOutbound.departureTime.minute) ∧
    timeOfDayLe
      (fridayNoonOutbound.departureTime.hour, fridayNoonOutbound.departureTime.minute)
      (23, 59) ∧
    _outbound_departure_allowed fridayNoonOutbound.departureTime = false := by
  refine ⟨rfl, rfl, ?_, ?_, rfl⟩
  · left; decide
  · left; decide

/-! ### C3 and C6: normalizer extraction order and degradation shape -/

/-- A RawResult carrying both a structured object and a parseable first
content block. -/
def structuredAndBlock : RawResult :=
  { structuredContent := some (.obj [("a", .num 1)]),
    content := some [{ text := some "\x7b\"b\": 2\x7d" }] }

/-- C3 counterexample: on a RawResult with both a structured object and a
non-empty first content block, `_parse_tool_result` returns the value
parsed from the block text, not the structured field's value — the
content blocks are consulted first, refuting the claimed extraction
order. -/
theorem C3_structured_field_not_first :
    structuredAndBlock.structuredContent = some (.obj [("a", .num 1)]) ∧
    structuredAndBlock.content = some [{ text := some "\x7b\"b\": 2\x7d" }] ∧
    _parse_tool_result (some structuredAndBlock) = some (.obj [("b", .num 2)]) ∧
    some (PyVal.obj [("b", .num 2)]) ≠ some (PyVal.obj [("a", .num 1)]) := by
  refine ⟨rfl, rfl, rfl, ?_⟩
  simp

/-- C3 (amended): whenever the first content block carries non-empty text,
`_parse_tool_result` returns the value derived from that text (its JSON
parse, or the `{"raw": text[:500]}` fallback) regardless of any structured
field; the structured field is consulted only when no usable first-block
text exists. -/
theorem C3_content_block_consulted_first (r : RawResult) (b : Block) (bs : List Block)
    (t : String) (hc : r.content = some (b :: bs)) (ht : _get_block_text b = some t)
    (hne : t.data.isEmpty = false) :
    _parse_tool_result (some r) =
      some (match json_loads t with
            | some v => v
            | none => .obj [("raw", .str (pyTakeStr 500 t))]) := by
  cases hj : json_loads t <;>
    simp only [_parse_tool_result, hc, ht, hne, hj, Bool.false_eq_true, if_false]

/-- Witness for C3 (amended): applied to the concrete RawResult that also
carries a structured object. -/
theorem C3_content_block_consulted_first_witness :
    _parse_tool_result (some structuredAndBlock) = some (.obj [("b", .num 2)]) :=
  (C3_content_block_consulted_first structuredAndBlock { text := some "\x7b\"b\": 2\x7d" } []
    "\x7b\"b\": 2\x7d" rfl rfl rfl).trans rfl

/-- A 501-character non-JSON string. -/
def longRawText : String := String.mk (List.replicate 501 'x')

/-- A RawResult with no content blocks whose structured field is an
unparseable string. -/
def longStructuredString : RawResult :=
  { structuredContent := some (.str longRawText), content := none }

set_option maxRecDepth 4000 in
/-- C6 counterexample: with no content block and a 501-character
unparseable structured string, `_parse_tool_result` degrades to
`{"raw": s}` where `s` is the structured string itself — not any block's
text, and not truncated to 500 characters. -/
theorem C6_untruncated_structured_raw :
    _parse_tool_result (some longStructuredString) =
      some (.obj [("raw", .str longRawText)]) ∧
    longRawText.data.length = 501 ∧
    longStructuredString.content = none := by
  refine ⟨rfl, ?_, rfl⟩
  simp [longRawText]

/-- C6 (amended): `_parse_tool_result` is total by construction, and
whenever the first content block carries non-empty text that fails to
parse as JSON, the result is exactly `{"raw": text[:500]}` — a hard
truncation to at most 500 characters; only the no-usable-block-text,
structured-string path degrades to an untruncated `{"raw": s}`. -/
theorem C6_first_block_raw_truncation (r : RawResult) (b : Block) (bs : List Block)
    (t : String) (hc : r.content = some (b :: bs)) (ht : _get_block_text b = some t)
    (hne : t.data.isEmpty = false) (hp : json_loads t = none) :
    _parse_tool_result (some r) = some (.obj [("raw", .str (pyTakeStr 500 t))]) ∧
    (pyTakeStr 500 t).data.length ≤ 500 := by
  constructor
  · simp only [_parse_tool_result, hc, ht, hne, hp, Bool.false_eq_true, if_false]
  · simp [pyTakeStr]

/-- A RawResult whose only content block holds unparseable text. -/
def unparseableBlock : RawResult :=
  { structuredContent := none, content := some [{ text := some "not json \x7b" }] }

/-- Witness for C6 (amended): the unparseable short block text comes back
as `{"raw": text[:500]}`. -/
theorem C6_first_block_raw_truncation_witness :
    _parse_tool_result (some unparseableBlock) =
      some (.obj [("raw", .str (pyTakeStr 500 "not json \x7b"))]) ∧
    (pyTakeStr 500 "not json \x7b").data.length ≤ 500 :=
  C6_first_block_raw_truncation unparseableBlock { text := some "not json \x7b" } []
    "not json \x7b" rfl rfl rfl rfl

/-! ### C4 and C8: error propagation and the missing location cache -/

/-- Helper: the location-query trace of `_top_hotels_for_destination` is
exactly the trace of its suggestion loop. -/
theorem top_hotels_log (s : TrivagoSession) (d : String) (a dep n : ℕ) :
    (_top_hotels_for_destination s d a dep n).1 =
      (trySuggestions s (_trivago_query_for_destination d)).1 := by
  rcases htr : trySuggestions s (_trivago_query_for_destination d) with ⟨log, r⟩
  simp only [_top_hotels_for_destination, htr]
  cases r with
  | error e => rfl
  | ok v =>
    cases v with
    | none => rfl
    | some p =>
      rcases p with ⟨location_id, location_ns⟩
      cases hs : s.search location_id location_ns a dep with
      | error e => simp [hs]
      | ok hotels => by_cases hh : hotels.isEmpty <;> simp [hs, hh]

/-- Helper: the suggestion loop always queries its first candidate. -/
theorem trySuggestions_head_mem (s : TrivagoSession) (q : String) (qs : List String) :
    q ∈ (trySuggestions s (q :: qs)).1 := by
  cases hsq : s.suggest q with
  | error e => simp [trySuggestions, hsq]
  | ok v =>
    cases v with
    | none =>
      rcases htr : trySuggestions s qs with ⟨log, r⟩
      simp [trySuggestions, hsq, htr]
    | some x => simp [trySuggestions, hsq]

/-- Helper: the query list always starts with the city-only query. -/
theorem trivago_queries_head (d : String) :
    ∃ tail, _trivago_query_for_destination d = _city_name_for_trivago d :: tail := by
  by_cases h : containsSub " - ".data (_city_name_for_trivago d).data = true
  · refine ⟨[String.mk (pyStrip (takeUntilSub " - ".data (_city_name_for_trivago d).data))], ?_⟩
    simp [_trivago_query_for_destination, h]
  · exact ⟨[], by simp [_trivago_query_for_destination, h]⟩

/-- Helper: every per-candidate lodging fetch issues a location lookup for
its city-only query. -/
theorem primary_query_mem_top_log (s : TrivagoSession) (d : String) (a dep n : ℕ) :
    _city_name_for_trivago d ∈ (_top_hotels_for_destination s d a dep n).1 := by
  rw [top_hotels_log]
  obtain ⟨tail, htail⟩ := trivago_queries_head d
  rw [htail]
  exact trySuggestions_head_mem s _ tail

/-- A session whose accommodation search times out exactly for the
location id that `"Badtown"` resolves to. -/
def errorProneSession : TrivagoSession :=
  { suggest := fun q => if q = "Badtown" then .ok (some (9, 9)) else .ok (some (1, 1)),
    search := fun location_id _ _ _ =>
      if location_id = 9 then .error .timeout else .ok [] }

def badOutbound : Leg :=
  { origin := "CGN", originFull := "Köln, Germany", destination := "BAD",
    destinationFull := "Badtown, Xland",
    departureTime := { ordinal := 5, hour := 18, minute := 0 }, price := 20 }

def badInbound : Leg :=
  { origin := "BAD", originFull := "Badtown, Xland", destination := "CGN",
    destinationFull := "Köln, Germany",
    departureTime := { ordinal := 8, hour := 10, minute := 0 }, price := 25 }

def goodOutbound : Leg :=
  { origin := "CGN", originFull := "Köln, Germany", destination := "GOO",
    destinationFull := "Goodcity, Yland",
    departureTime := { ordinal := 6, hour := 18, minute := 0 }, price := 30 }

def goodInbound : Leg :=
  { origin := "GOO", originFull := "Goodcity, Yland", destination := "CGN",
    destinationFull := "Köln, Germany",
    departureTime := { ordinal := 9, hour := 10, minute := 0 }, price := 35 }

/-- C4 counterexample: a provider timeout while fetching lodging for the
first candidate makes the whole phase error — the second candidate, which
enriches fine on its own, is not enriched and does not appear. -/
theorem C4_lodging_error_not_isolated :
    (fetch_hotels_for_cheapest_flights errorProneSession 3
      [(badOutbound, badInbound, 20), (goodOutbound, goodInbound, 30)]).2 =
      .error .timeout ∧
    (fetch_hotels_for_cheapest_flights errorProneSession 3
      [(goodOutbound, goodInbound, 30)]).2 =
      .ok [{ destination := "Goodcity", arrival := 6, departure := 9,
             flight := goodOutbound, return_flight := goodInbound, price := 30,
             hotels := [] }] :=
  ⟨rfl, rfl⟩

/-- C4 (amended): the per-candidate lodging fetch is not guarded by any
try/except, so a provider error for any one candidate aborts the whole
lodging phase: no candidate — including every `j ≠ i` — is enriched. -/
theorem C4_lodging_error_aborts_phase (s : TrivagoSession) (n : ℕ)
    (cs : List Candidate) (c : Candidate) (hmem : c ∈ cs)
    (herr : (_top_hotels_for_destination s (destCityOfDestinationFull c.1.destinationFull)
      c.1.departureTime.ordinal c.2.1.departureTime.ordinal n).2.isOk = false) :
    (fetch_hotels_for_cheapest_flights s n cs).2.isOk = false := by
  induction cs with
  | nil => cases hmem
  | cons d cs ih =>
    rcases List.mem_cons.mp hmem with rfl | hmem2
    · rcases ht : _top_hotels_for_destination s (destCityOfDestinationFull c.1.destinationFull)
          c.1.departureTime.ordinal c.2.1.departureTime.ordinal n with ⟨log, r⟩
      rw [ht] at herr
      cases r with
      | error e => simp [fetch_hotels_for_cheapest_flights, ht, Except.isOk, Except.toBool]
      | ok v => simp [Except.isOk, Except.toBool] at herr
    · rcases ht : _top_hotels_for_destination s (destCityOfDestinationFull d.1.destinationFull)
          d.1.departureTime.ordinal d.2.1.departureTime.ordinal n with ⟨log, r⟩
      cases r with
      | error e => simp [fetch_hotels_for_cheapest_flights, ht, Except.isOk, Except.toBool]
      | ok hotels =>
        have ih2 := ih hmem2
        rcases hf : fetch_hotels_for_cheapest_flights s n cs with ⟨log2, r2⟩
        rw [hf] at ih2
        cases r2 with
        | error e => simp [fetch_hotels_for_cheapest_flights, ht, hf, Except.isOk, Except.toBool]
        | ok rest => simp [Except.isOk, Except.toBool] at ih2

/-- Witness for C4 (amended): applied to the concrete session and
two-candidate list whose first lodging fetch times out. -/
theorem C4_lodging_error_aborts_phase_witness :
    (fetch_hotels_for_cheapest_flights errorProneSession 3
      [(badOutbound, badInbound, 20), (goodOutbound, goodInbound, 30)]).2.isOk = false :=
  C4_lodging_error_aborts_phase errorProneSession 3
    [(badOutbound, badInbound, 20), (goodOutbound, goodInbound, 30)]
    (badOutbound, badInbound, 20) (List.mem_cons_self _ _) rfl

/-- A session that always resolves locations and returns empty hotel
lists, to observe the location-query trace alone. -/
def cachingFreeSession : TrivagoSession :=
  { suggest := fun _ => .ok (some (1, 1)), search := fun _ _ _ _ => .ok [] }

def faroOutbound : Leg :=
  { origin := "CGN", originFull := "Köln, Germany", destination := "FAO",
    destinationFull := "Faro, Portugal",
    departureTime := { ordinal := 5, hour := 18, minute := 0 }, price := 20 }

def faroInbound : Leg :=
  { origin := "FAO", originFull := "Faro, Portugal", destination := "CGN",
    destinationFull := "Köln, Germany",
    departureTime := { ordinal := 8, hour := 10, minute := 0 }, price := 25 }

/-- C8 counterexample: two candidates sharing `destinationCity = "Faro"`
trigger two remote location-suggestion lookups for `"Faro"` — there is no
cache, refuting "at most once per city". -/
theorem C8_location_requery :
    (fetch_hotels_for_cheapest_flights cachingFreeSession 3
      [(faroOutbound, faroInbound, 20), (faroOutbound, faroInbound, 20)]).1 =
      ["Faro", "Faro"] ∧
    (fetch_hotels_for_cheapest_flights cachingFreeSession 3
      [(faroOutbound, faroInbound, 20), (faroOutbound, faroInbound, 20)]).1.count "Faro" = 2 :=
  ⟨rfl, rfl⟩

/-- C8 (amended): location resolution has no dedup cache — on a successful
run every candidate issues its own location lookup, so the number of
lookups for a query string is at least the number of candidates whose
city-only query is that string. -/
theorem C8_no_location_dedup (s : TrivagoSession) (n : ℕ) (cs : List Candidate)
    (q : String)
    (hok : (fetch_hotels_for_cheapest_flights s n cs).2.isOk = true) :
    cs.countP (fun c =>
        decide (_city_name_for_trivago (destCityOfDestinationFull c.1.destinationFull) = q)) ≤
      (fetch_hotels_for_cheapest_flights s n cs).1.count q := by
  induction cs with
  | nil => simp
  | cons d cs ih =>
    rcases ht : _top_hotels_for_destination s (destCityOfDestinationFull d.1.destinationFull)
        d.1.departureTime.ordinal d.2.1.departureTime.ordinal n with ⟨log, r⟩
    cases r with
    | error e =>
      rw [show fetch_hotels_for_cheapest_flights s n (d :: cs) = (log, .error e) by
        simp [fetch_hotels_for_cheapest_flights, ht]] at hok
      simp [Except.isOk, Except.toBool] at hok
    | ok hotels =>
      rcases hf : fetch_hotels_for_cheapest_flights s n cs with ⟨log2, r2⟩
      cases r2 with
      | error e =>
        rw [show fetch_hotels_for_cheapest_flights s n (d :: cs) = (log ++ log2, .error e) by
          simp [fetch_hotels_for_cheapest_flights, ht, hf]] at hok
        simp [Except.isOk, Except.toBool] at hok
      | ok rest =>
        have ih2 : List.countP (fun c =>
            decide (_city_name_for_trivago (destCityOfDestinationFull c.1.destinationFull) = q)) cs ≤
            List.count q log2 := by
          have h0 := ih (by rw [hf]; rfl)
          rw [hf] at h0
          exact h0
        have hhead :
            (if (decide (_city_name_for_trivago (destCityOfDestinationFull d.1.destinationFull) = q)) = true
             then 1 else 0) ≤ log.count q := by
          by_cases hd : _city_name_for_trivago (destCityOfDestinationFull d.1.destinationFull) = q
          · have hm := primary_query_mem_top_log s (destCityOfDestinationFull d.1.destinationFull)
              d.1.departureTime.ordinal d.2.1.departureTime.ordinal n
            rw [ht] at hm
            rw [hd] at hm
            have hpos : 0 < log.count q := List.count_pos_iff.mpr hm
            have hone : (if (decide (_city_name_for_trivago
                (destCityOfDestinationFull d.1.destinationFull) = q)) = true
                then 1 else 0) = 1 := by simp [hd]
            rw [hone]
            omega
          · simp [hd]
        rw [show (fetch_hotels_for_cheapest_flights s n (d :: cs)).1 = log ++ log2 by
          simp [fetch_hotels_for_cheapest_flights, ht, hf]]
        rw [List.countP_cons, List.count_append]
        omega

/-- Witness for C8 (amended): applied to the concrete session and the
two-Faro-candidate list. -/
theorem C8_no_location_dedup_witness :
    ([(faroOutbound, faroInbound, (20 : ℚ)), (faroOutbound, faroInbound, 20)].countP
      (fun c =>
        decide (_city_name_for_trivago (destCityOfDestinationFull c.1.destinationFull) = "Faro"))) ≤
      (fetch_hotels_for_cheapest_flights cachingFreeSession 3
        [(faroOutbound, faroInbound, 20), (faroOutbound, faroInbound, 20)]).1.count "Faro" :=
  C8_no_location_dedup cachingFreeSession 3
    [(faroOutbound, faroInbound, 20), (faroOutbound, faroInbound, 20)] "Faro" rfl
